import Mathlib

/-!
Verification development for the `uom-grades` session/authentication core
(`src/src-tauri/src/lib.rs`).

The Rust code is shallowly embedded:

* `serde_json::Value` becomes the inductive `Json` (object members kept as an
  association list in the map's deterministic iteration order; `serde_json`
  object keys are unique).
* Parsed HTML documents (`scraper::Html` plus CSS selectors) become a list of
  `Element`s in document order; `doc.select(sel).next()` becomes
  `List.find?` with the selector's predicate.
* The HTTP client's cookie jar (`reqwest::cookie::Jar`) becomes an association
  list of name/value pairs scoped to the single portal origin; cookie strings
  are handled at the `List Char` level so that Rust's `split("; ")` can be
  modelled exactly.
* The Tauri-managed `AppState` session slot plus the session file on disk
  become a `World` record; each `#[tauri::command]` becomes a function
  `Env → World → World × Except String α`, where the `Env` record supplies the
  outcome of every network round-trip (the code's only external inputs).
  Mutex acquisition always succeeds in the model (single process, no
  poisoning), and `std::fs::remove_file` succeeds (its result is ignored by
  the code).
-/

/-- Model of `serde_json::Value`. Numbers are modelled as integers (the only
number the claims exercise; `Number::to_string` on an integer is its decimal
form). Object members are listed in the map's iteration order. -/
inductive Json where
  | null
  | bool (b : Bool)
  | num (n : Int)
  | str (s : String)
  | arr (elems : List Json)
  | obj (members : List (String × Json))
deriving Inhabited

/-- `extract_id` (the inner closure of `find_profile_id`, lib.rs:76-82):
`v.get("id")` is a first-match key lookup on an object (`None` on every other
JSON kind), then a string is returned as-is and a number via `to_string`. -/
def extract_id (v : Json) : Option String :=
  match v with
  | .obj members =>
      (members.lookup "id").bind fun id =>
        match id with
        | .str s => some s
        | .num n => some (toString n)
        | _ => none
  | _ => none

mutual

/-- `find_profile_id` (lib.rs:75-95): objects recurse into every member value
first and fall back to their own `id`; arrays look only at the direct `id` of
their first element; all other kinds yield `none`. -/
def find_profile_id : Json → Option String
  | .obj members =>
      match findInMembers members with
      | some id => some id
      | none => extract_id (.obj members)
  | .arr elems => elems.head?.bind extract_id
  | _ => none

/-- The `for v in map.values()` loop of `find_profile_id` with early return
(lib.rs:85-89). -/
def findInMembers : List (String × Json) → Option String
  | [] => none
  | (_, v) :: rest =>
      match find_profile_id v with
      | some id => some id
      | none => findInMembers rest

end

-- ── HTML document model and token extractors ────────────────────────

/-- An element of a parsed HTML document: tag name and attribute list. -/
structure Element where
  tag : String
  attrs : List (String × String)
deriving DecidableEq, Inhabited

/-- `el.value().attr(name)`: first-match attribute lookup. -/
def attrOf (e : Element) (name : String) : Option String :=
  e.attrs.lookup name

/-- A parsed document, elements in document order (`Html::parse_document`
followed by `select` iterates matches in document order). -/
abbrev Doc := List Element

/-- The CSS selector `input[name="…"]` as a predicate. -/
def isInputNamed (n : String) (e : Element) : Bool :=
  e.tag == "input" && attrOf e "name" == some n

/-- The CSS selector `meta[name="…"]` as a predicate. -/
def isMetaNamed (n : String) (e : Element) : Bool :=
  e.tag == "meta" && attrOf e "name" == some n

/-- `extract_cas_tokens` (lib.rs:47-63): the `value` of the first
`input[name="execution"]` is required ("CAS execution token not found"
otherwise); the `value` of the first `input[name="lt"]` is optional. -/
def extract_cas_tokens (doc : Doc) : Except String (String × Option String) :=
  match (doc.find? (isInputNamed "execution")).bind (fun e => attrOf e "value") with
  | none => .error "CAS execution token not found"
  | some execution =>
      .ok (execution, (doc.find? (isInputNamed "lt")).bind (fun e => attrOf e "value"))

/-- `extract_csrf` (lib.rs:65-73): the `content` of the first
`meta[name="_csrf"]`, required. -/
def extract_csrf (doc : Doc) : Except String String :=
  match (doc.find? (isMetaNamed "_csrf")).bind (fun e => attrOf e "content") with
  | none => .error "CSRF token not found"
  | some content => .ok content

-- ── Cookie Store Adapter ────────────────────────────────────────────

/-- An HTTP client, reduced to what the session subsystem observes of it: the
cookie jar's name/value pairs for the single portal origin, in insertion
order. (`reqwest::Client` also carries the fixed user-agent and timeouts,
which no claim depends on; the `Domain=sis-portal.uom.gr; Path=/` scoping of
`build_client_from_cookies` is implicit because the model tracks only that one
origin.) -/
structure Client where
  jar : List (String × String)
deriving DecidableEq, Inhabited

/-- Rust's `str::split("; ")` on a character list: leftmost, non-overlapping
matches of the two-character separator; the empty string yields one empty
segment, exactly as in Rust. -/
def splitSemiSp : List Char → List (List Char)
  | [] => [[]]
  | ';' :: ' ' :: rest => [] :: splitSemiSp rest
  | c :: rest =>
      match splitSemiSp rest with
      | [] => [[c]]
      | h :: t => (c :: h) :: t

/-- The `"name=value; name2=value2"` join performed by
`jar.cookies(&portal_url)` (lib.rs:136-139): pairs joined by `"; "`, the empty
jar giving the empty string (`unwrap_or_default`). -/
def joinSemiSp : List (List Char) → List Char
  | [] => []
  | [x] => x
  | x :: xs => x ++ ';' :: ' ' :: joinSemiSp xs

/-- One serialized cookie pair, `name=value`, as characters. -/
def cookiePairChars (p : String × String) : List Char :=
  p.1.data ++ '=' :: p.2.data

/-- `serializeCookies`: the jar's `name=value; name2=value2` representation
for the portal origin (lib.rs:136-139). -/
def serializeCookies (jar : List (String × String)) : String :=
  ⟨joinSemiSp (jar.map cookiePairChars)⟩

/-- The `cookie` crate's `name=value` parsing as used by `add_cookie_str`
(lib.rs:167): split at the first `=`; no `=` at all (`MissingPair`) or an
empty name (`EmptyName`) is a parse failure, which `add_cookie_str` silently
drops. Whitespace trimming and double-quote stripping of values are not
modelled (the round-trip theorem's inputs contain neither). -/
def parseCookiePair (part : List Char) : Option (String × String) :=
  let name := part.takeWhile (fun c => c ≠ '=')
  if name.length = part.length ∨ name = [] then none
  else some (⟨name⟩, ⟨part.drop (name.length + 1)⟩)

/-- Insertion into a cookie jar: a cookie with the same name (same fixed
domain/path) replaces the old one, a fresh name is appended. -/
def jarInsert (jar : List (String × String)) (n v : String) :
    List (String × String) :=
  if jar.any (fun p => p.1 = n) then
    jar.map (fun p => if p.1 = n then (n, v) else p)
  else jar ++ [(n, v)]

/-- The loop body of `build_client_from_cookies` (lib.rs:164-169): skip empty
segments, silently drop unparsable ones, insert the rest. -/
def addCookiePart (jar : List (String × String)) (part : List Char) :
    List (String × String) :=
  if part.isEmpty then jar
  else
    match parseCookiePair part with
    | some (n, v) => jarInsert jar n v
    | none => jar

/-- `build_client_from_cookies` (lib.rs:160-176): a fresh jar, then for each
non-empty `"; "`-delimited segment of the input, `add_cookie_str` with the
portal domain/path. (`Client::builder().build()` never fails in the model;
the code propagates its error, an initialization edge case outside every
claim's scope.) -/
def build_client_from_cookies (cookies : String) : Client :=
  ⟨(splitSemiSp cookies.data).foldl addCookiePart []⟩

-- ── JSON rendering (serde_json Display, compact form) ───────────────

mutual

/-- Compact rendering of a `Json` value, as `format!("{v}")` produces via
`serde_json`'s `Display` (string escaping is not modelled; no claim inspects
a rendered payload). Used only inside the `No student profiles found in: …`
diagnostic of `login` (lib.rs:344). -/
def jsonRender : Json → String
  | .null => "null"
  | .bool true => "true"
  | .bool false => "false"
  | .num n => toString n
  | .str s => "\"" ++ s ++ "\""
  | .arr xs => "[" ++ renderElems xs ++ "]"
  | .obj ms => "\x7b" ++ renderMembers ms ++ "\x7d"

/-- Comma-joined rendering of array elements. -/
def renderElems : List Json → String
  | [] => ""
  | [x] => jsonRender x
  | x :: y :: xs => jsonRender x ++ "," ++ renderElems (y :: xs)

/-- Comma-joined rendering of object members. -/
def renderMembers : List (String × Json) → String
  | [] => ""
  | [(k, v)] => "\"" ++ k ++ "\":" ++ jsonRender v
  | (k, v) :: m :: ms => "\"" ++ k ++ "\":" ++ jsonRender v ++ "," ++ renderMembers (m :: ms)

end

-- ── Session state, persistence, and the Tauri commands ──────────────

/-- `SessionData` (lib.rs:22-26): the in-memory session — client (with its
cookie jar), CSRF security token, profile id — always installed and read as
one value. -/
structure SessionData where
  client : Client
  csrf : String
  profile_id : String
deriving DecidableEq, Inhabited

/-- `SavedSession` (lib.rs:38-43): the decoded on-disk record. -/
structure SavedSession where
  portal_cookies : String
  csrf : String
  profile_id : String
deriving DecidableEq, Inhabited

/-- The session file at the fixed path, abstracted to its decode outcome:
absent (`read_to_string` fails), present but not decodable as a
`SavedSession` (`serde_json::from_str` fails; `raw` is the undecodable text),
or a decoded record. -/
inductive DiskFile where
  | absent
  | corrupt (raw : String)
  | record (s : SavedSession)
deriving DecidableEq, Inhabited

/-- The app's auth-relevant state: the session file on disk and the
mutex-guarded in-memory session slot (`AppState.session`, lib.rs:33-36).
The slot holds `none` or one complete `SessionData` — by construction no
partial session is representable, mirroring `Mutex<Option<SessionData>>`. -/
structure World where
  disk : DiskFile
  session : Option SessionData
deriving DecidableEq, Inhabited

/-- `delete_session_from_disk` (lib.rs:154-158): best-effort removal; in the
model removal succeeds (the code ignores the result). -/
def delete_session_from_disk (w : World) : World :=
  { w with disk := .absent }

/-- `store_session` (lib.rs:187-192): replace the slot's whole value. -/
def store_session (w : World) (data : SessionData) : World :=
  { w with session := some data }

/-- `extract_session` (lib.rs:180-185): snapshot the whole session, or fail
with `Not logged in` when the slot is empty. -/
def extract_session (w : World) : Except String SessionData :=
  match w.session with
  | none => .error "Not logged in"
  | some s => .ok s

/-- Outcome of one authenticated `api_get` round-trip (lib.rs:196-215),
supplied by the environment: an error already carries the code's
`Request failed: …` / `Invalid JSON: …` message. -/
abbrev ApiResult := Except String Json

/-- `get_student_info` (lib.rs:361-365): requires a session, then one
`api_get`; never changes state. -/
def get_student_info (resp : ApiResult) (w : World) : World × Except String Json :=
  match extract_session w with
  | .error e => (w, .error e)
  | .ok _ => (w, resp)

/-- `get_grades` (lib.rs:369-373): same shape as `get_student_info`. -/
def get_grades (resp : ApiResult) (w : World) : World × Except String Json :=
  match extract_session w with
  | .error e => (w, .error e)
  | .ok _ => (w, resp)

/-- `get_grade_stats` (lib.rs:385-397): same shape, path built from the two
ids. -/
def get_grade_stats (courseSyllabusId examPeriodId : String) (resp : ApiResult)
    (w : World) : World × Except String Json :=
  match extract_session w with
  | .error e => (w, .error e)
  | .ok _ =>
      let _path := "/feign/student/grades/stats/course_syllabus/" ++ courseSyllabusId
        ++ "/exam_period/" ++ examPeriodId
      (w, resp)

/-- `logout` (lib.rs:420-427): delete the persisted record, clear the
in-memory slot, succeed. -/
def logout (w : World) : World × Except String Unit :=
  ({ delete_session_from_disk w with session := none }, .ok ())

/-- Environment of one `try_restore_session` run: the outcome of its single
validation round-trip (`api_get … /feign/student/student_data`). -/
structure RestoreEnv where
  validate : ApiResult
deriving Inhabited

/-- `try_restore_session` (lib.rs:219-256): read the file (`No saved
session`), decode it (`Corrupt session file`), reject empty cookies (`Empty
session`), rebuild a client, validate with one `api_get` — on failure delete
the file and report `Session expired`; on success install the session and
return the payload. -/
def try_restore_session (env : RestoreEnv) (w : World) :
    World × Except String Json :=
  match w.disk with
  | .absent => (w, .error "No saved session")
  | .corrupt _ => (w, .error "Corrupt session file")
  | .record saved =>
      if saved.portal_cookies = "" then (w, .error "Empty session")
      else
        let client := build_client_from_cookies saved.portal_cookies
        match env.validate with
        | .error _ => (delete_session_from_disk w, .error "Session expired")
        | .ok student_info =>
            (store_session w ⟨client, saved.csrf, saved.profile_id⟩,
             .ok student_info)

/-- The POST response of login step 4, as the code observes it: the final
resolved URL (its host and its full text) plus the transport-level status and
body, which `login` never reads. -/
structure HttpResponse where
  host : Option String
  urlStr : String
  status : Nat
  body : String
deriving DecidableEq, Inhabited

/-- Environment of one `login` run: the outcome of each network round-trip,
in program order. HTML bodies are supplied already parsed (`Doc`). `saveOk`
is whether the best-effort `save_session_to_disk` write would succeed, and
`finalJar` is the login client's cookie jar at save time (cookies are set by
the server across the preceding round-trips). -/
structure LoginEnv where
  portalInit : Except String Unit
  casPage : Except String (String × Doc)
  casPost : Except String HttpResponse
  portalHtml : Except String Doc
  profiles : Except String Json
  studentData : Except String Json
  saveOk : Bool
  finalJar : List (String × String)

/-- Steps 5-9 of `login` (lib.rs:320-356), after the host check has passed:
CSRF extraction from the portal page, profile fetch and resolution, student
data fetch, best-effort persistence, atomic install. -/
def loginAfterHostCheck (env : LoginEnv) (w : World) :
    World × Except String Json :=
  match env.portalHtml with
  | .error e => (w, .error e)
  | .ok portalDoc =>
  match extract_csrf portalDoc with
  | .error e => (w, .error e)
  | .ok csrf =>
  match env.profiles with
  | .error e => (w, .error e)
  | .ok profiles =>
  match find_profile_id profiles with
  | none => (w, .error ("No student profiles found in: " ++ jsonRender profiles))
  | some profile_id =>
  match env.studentData with
  | .error e => (w, .error e)
  | .ok student_info =>
      let w1 :=
        if env.saveOk then
          { w with disk := .record ⟨serializeCookies env.finalJar, csrf, profile_id⟩ }
        else w
      (store_session w1 ⟨⟨env.finalJar⟩, csrf, profile_id⟩, .ok student_info)

/-- `login` (lib.rs:260-357): fresh client, portal GET (step 1), CAS page GET
(step 2), token extraction (step 3), credential POST (step 4), then the
host check of lib.rs:314-317 — a final host of `sso.uom.gr` is `Invalid
username or password (ended at <final url>)`, anything else proceeds to
`loginAfterHostCheck`. -/
def login (env : LoginEnv) (w : World) : World × Except String Json :=
  match env.portalInit with
  | .error e => (w, .error ("Portal unreachable: " ++ e))
  | .ok _ =>
  match env.casPage with
  | .error e => (w, .error ("CAS page error: " ++ e))
  | .ok (_login_url, loginDoc) =>
  match extract_cas_tokens loginDoc with
  | .error e => (w, .error e)
  | .ok (_execution, _lt) =>
  match env.casPost with
  | .error e => (w, .error ("Login request failed: " ++ e))
  | .ok resp =>
      if resp.host = some "sso.uom.gr" then
        (w, .error ("Invalid username or password (ended at " ++ resp.urlStr ++ ")"))
      else loginAfterHostCheck env w


-- ── Helper lemmas ───────────────────────────────────────────────────

/-- The member loop of `find_profile_id` is `List.findSome?` of the recursive
call over the member values. -/
lemma findInMembers_eq_findSome (ms : List (String × Json)) :
    findInMembers ms = ms.findSome? fun m => find_profile_id m.2 := by
  induction ms with
  | nil => simp [findInMembers]
  | cons m rest ih =>
      obtain ⟨k, v⟩ := m
      rw [findInMembers, List.findSome?_cons]
      cases find_profile_id v <;> simp [ih]

-- ── C2 ──────────────────────────────────────────────────────────────

/-- C2: `find_profile_id` recurses into an object's member values in their
deterministic iteration order and returns the first non-absent result from
any subtree; only when every child yields nothing does it read the object's
own `id` field (a string as-is, a number in decimal form); an array is probed
only at its first element's direct `id` field; every other JSON kind yields
absent. Concretely, `{"data":{"id":42}}` gives `"42"`,
`[{"id":"abc"},{"id":"zzz"}]` gives `"abc"`, and `{}`, `[]`, `"string"` give
absent. -/
theorem C2_find_profile_id_behaviour :
    (∀ ms, find_profile_id (.obj ms) =
      (match ms.findSome? (fun m => find_profile_id m.2) with
       | some id => some id
       | none => extract_id (.obj ms))) ∧
    (∀ xs, find_profile_id (.arr xs) = xs.head?.bind extract_id) ∧
    find_profile_id .null = none ∧
    (∀ b, find_profile_id (.bool b) = none) ∧
    (∀ n, find_profile_id (.num n) = none) ∧
    (∀ s, find_profile_id (.str s) = none) ∧
    (∀ s rest, extract_id (.obj (("id", .str s) :: rest)) = some s) ∧
    (∀ n rest, extract_id (.obj (("id", .num n) :: rest)) = some (toString n)) ∧
    find_profile_id (.obj [("data", .obj [("id", .num 42)])]) = some "42" ∧
    find_profile_id (.arr [.obj [("id", .str "abc")], .obj [("id", .str "zzz")]])
      = some "abc" ∧
    find_profile_id (.obj []) = none ∧
    find_profile_id (.arr []) = none ∧
    find_profile_id (.str "string") = none := by
  refine ⟨fun ms => ?_, fun xs => ?_, rfl, fun b => rfl, fun n => rfl, fun s => rfl,
    fun s rest => ?_, fun n rest => ?_, ?_, ?_, ?_, ?_, ?_⟩
  · rw [find_profile_id, findInMembers_eq_findSome]
  · rw [find_profile_id]
  · simp [extract_id]
  · simp [extract_id]
  · simp [find_profile_id, findInMembers, extract_id]; rfl
  · simp [find_profile_id, findInMembers, extract_id]
  · simp [find_profile_id, findInMembers, extract_id]
  · simp [find_profile_id]
  · simp [find_profile_id]

-- ── C9 ──────────────────────────────────────────────────────────────

/-- C9: `find_profile_id` never recurses inside an array: a non-empty array
is probed only at its first element's direct `id` field, so `[[{"id":"x"}]]`,
`[{"data":{"id":"x"}}]` and `[{},{"id":"y"}]` all yield absent even though an
`id` sits deeper or in a later element. -/
theorem C9_array_first_element_only :
    (∀ x xs, find_profile_id (.arr (x :: xs)) = extract_id x) ∧
    find_profile_id (.arr [.arr [.obj [("id", .str "x")]]]) = none ∧
    find_profile_id (.arr [.obj [("data", .obj [("id", .str "x")])]]) = none ∧
    find_profile_id (.arr [.obj [], .obj [("id", .str "y")]]) = none := by
  refine ⟨fun x xs => ?_, ?_, ?_, ?_⟩
  · rw [find_profile_id]; rfl
  · rw [find_profile_id]; decide
  · rw [find_profile_id]; decide
  · rw [find_profile_id]; decide

-- ── C1 ──────────────────────────────────────────────────────────────

/-- C1, counterexample: with a corrupt session file present, a restore
attempt reports `Corrupt session file` but leaves the persisted record on
disk — it is not deleted, contrary to the claim that every restore-path
failure except the not-found case deletes the record. -/
theorem C1_counterexample_corrupt_not_deleted :
    (try_restore_session ⟨.ok .null⟩ ⟨.corrupt "not json", none⟩).2
        = .error "Corrupt session file" ∧
    (try_restore_session ⟨.ok .null⟩ ⟨.corrupt "not json", none⟩).1.disk
        = .corrupt "not json" ∧
    DiskFile.corrupt "not json" ≠ .absent :=
  ⟨rfl, rfl, by decide⟩

/-- C1, amended: of the restore-path failures only the validation-failure
case (`Session expired`) deletes the persisted record; `Corrupt session
file` and `Empty session` leave the file (and the in-memory session) exactly
as they were, and the not-found case trivially has no record. After a
restore whose validation call fails, the persisted record is absent and the
error reported is `Session expired`. -/
theorem C1_restore_deletion_amended (env : RestoreEnv) (w : World) :
    (w.disk = .absent →
      try_restore_session env w = (w, .error "No saved session")) ∧
    (∀ raw, w.disk = .corrupt raw →
      try_restore_session env w = (w, .error "Corrupt session file")) ∧
    (∀ s, w.disk = .record s → s.portal_cookies = "" →
      try_restore_session env w = (w, .error "Empty session")) ∧
    (∀ s e, w.disk = .record s → s.portal_cookies ≠ "" → env.validate = .error e →
      try_restore_session env w =
        ({ w with disk := .absent }, .error "Session expired")) := by
  refine ⟨fun h => ?_, fun raw h => ?_, fun s h hc => ?_, fun s e h hc hv => ?_⟩
  · simp [try_restore_session, h]
  · simp [try_restore_session, h]
  · simp [try_restore_session, h, hc]
  · simp [try_restore_session, h, hc, hv, delete_session_from_disk]

/-- C1 witness: a concrete record whose validation call fails is deleted and
reported as `Session expired`. -/
theorem C1_restore_deletion_amended_witness :
    try_restore_session ⟨.error "Request failed: 401"⟩
        ⟨.record ⟨"a=1", "tok", "42"⟩, none⟩
      = (⟨.absent, none⟩, .error "Session expired") := by
  have h := (C1_restore_deletion_amended ⟨.error "Request failed: 401"⟩
      ⟨.record ⟨"a=1", "tok", "42"⟩, none⟩).2.2.2 ⟨"a=1", "tok", "42"⟩
      "Request failed: 401" rfl (by decide) rfl
  simpa using h

-- ── C4 ──────────────────────────────────────────────────────────────

/-- C4, counterexample: in a document whose first `input[name="execution"]`
has no `value` attribute, extraction fails even though a later
`input[name="execution"]` element does carry a `value` — so the claim's
"fails exactly when no such element with a value attribute exists" does not
hold of the code. -/
theorem C4_counterexample_first_match_without_value :
    extract_cas_tokens
        [⟨"input", [("name", "execution")]⟩,
         ⟨"input", [("name", "execution"), ("value", "X")]⟩]
      = .error "CAS execution token not found" ∧
    ∃ e ∈ [Element.mk "input" [("name", "execution")],
           Element.mk "input" [("name", "execution"), ("value", "X")]],
      isInputNamed "execution" e = true ∧ attrOf e "value" = some "X" := by
  constructor
  · rfl
  · exact ⟨⟨"input", [("name", "execution"), ("value", "X")]⟩, by decide, by decide, rfl⟩

/-- C4, amended: `extract_cas_tokens` returns the `value` attribute of the
*first* input element named `execution`, and fails with the `TokenMissing`
error exactly when either no input named `execution` exists or the first
such element lacks a `value` attribute; the `value` of the first input named
`lt` is returned optionally, its absence simply leaving the field absent.
For a document containing `<input name="execution" value="X">`, extraction
returns `X`. -/
theorem C4_execution_token_amended (doc : Doc) :
    (∀ e, doc.find? (isInputNamed "execution") = some e →
      extract_cas_tokens doc =
        (match attrOf e "value" with
         | some v => .ok (v, (doc.find? (isInputNamed "lt")).bind fun el => attrOf el "value")
         | none => .error "CAS execution token not found")) ∧
    (doc.find? (isInputNamed "execution") = none →
      extract_cas_tokens doc = .error "CAS execution token not found") ∧
    extract_cas_tokens [⟨"input", [("name", "execution"), ("value", "X")]⟩]
      = .ok ("X", none) ∧
    extract_cas_tokens [⟨"input", [("name", "execution"), ("value", "X")]⟩,
        ⟨"input", [("name", "lt"), ("value", "Y")]⟩]
      = .ok ("X", some "Y") := by
  refine ⟨fun e h => ?_, fun h => ?_, rfl, rfl⟩
  · rw [extract_cas_tokens, h]
    cases hA : attrOf e "value" <;> simp [hA]
  · rw [extract_cas_tokens, h]
    rfl

/-- C4 witness: the first-match characterization applied to the concrete
document `<input name="execution" value="X">`. -/
theorem C4_execution_token_amended_witness :
    extract_cas_tokens [⟨"input", [("name", "execution"), ("value", "X")]⟩]
      = .ok ("X", none) := by
  have h := (C4_execution_token_amended
      [⟨"input", [("name", "execution"), ("value", "X")]⟩]).1
      ⟨"input", [("name", "execution"), ("value", "X")]⟩ (by decide)
  simpa using h

-- ── C10 ─────────────────────────────────────────────────────────────

/-- C10: both extraction functions depend only on the first matching element
in document order — two documents with the same first `input[name="execution"]`
and `input[name="lt"]` (resp. the same first `meta[name="_csrf"]`) extract
identically — and with several matching elements the first one wins. -/
theorem C10_first_match_in_document_order :
    (∀ d1 d2 : Doc,
      d1.find? (isInputNamed "execution") = d2.find? (isInputNamed "execution") →
      d1.find? (isInputNamed "lt") = d2.find? (isInputNamed "lt") →
      extract_cas_tokens d1 = extract_cas_tokens d2) ∧
    (∀ d1 d2 : Doc,
      d1.find? (isMetaNamed "_csrf") = d2.find? (isMetaNamed "_csrf") →
      extract_csrf d1 = extract_csrf d2) ∧
    extract_cas_tokens [⟨"input", [("name", "execution"), ("value", "X")]⟩,
        ⟨"input", [("name", "execution"), ("value", "Y")]⟩]
      = .ok ("X", none) ∧
    extract_csrf [⟨"meta", [("name", "_csrf"), ("content", "A")]⟩,
        ⟨"meta", [("name", "_csrf"), ("content", "B")]⟩]
      = .ok "A" := by
  refine ⟨fun d1 d2 hexec hlt => ?_, fun d1 d2 hcsrf => ?_, rfl, rfl⟩
  · rw [extract_cas_tokens, extract_cas_tokens, hexec, hlt]
  · rw [extract_csrf, extract_csrf, hcsrf]

/-- C10 witness: a trailing non-matching element does not change the
extraction of a concrete document. -/
theorem C10_first_match_in_document_order_witness :
    extract_cas_tokens [⟨"input", [("name", "execution"), ("value", "X")]⟩,
        ⟨"div", []⟩]
      = extract_cas_tokens [⟨"input", [("name", "execution"), ("value", "X")]⟩] :=
  (C10_first_match_in_document_order).1 _ _ (by decide) (by decide)

-- ── C6 ──────────────────────────────────────────────────────────────

/-- C6: with no session installed, each data-fetching command fails with the
`Not logged in` (NotAuthenticated) error without touching its network
response — the state and result are independent of it. `logout` itself
unconditionally clears the in-memory session, deletes the persisted record,
succeeds, and is idempotent; a `get_student_info` after `logout` fails with
`Not logged in`. -/
theorem C6_not_authenticated_and_logout :
    (∀ resp w, w.session = none →
      get_student_info resp w = (w, .error "Not logged in")) ∧
    (∀ resp w, w.session = none →
      get_grades resp w = (w, .error "Not logged in")) ∧
    (∀ c p resp w, w.session = none →
      get_grade_stats c p resp w = (w, .error "Not logged in")) ∧
    (∀ w, logout w = (⟨.absent, none⟩, .ok ())) ∧
    (∀ w, logout (logout w).1 = logout w) ∧
    (∀ resp w, get_student_info resp (logout w).1
      = ((logout w).1, .error "Not logged in")) := by
  refine ⟨fun resp w h => ?_, fun resp w h => ?_, fun c p resp w h => ?_,
    fun w => rfl, fun w => rfl, fun resp w => rfl⟩
  · simp [get_student_info, extract_session, h]
  · simp [get_grades, extract_session, h]
  · simp [get_grade_stats, extract_session, h]

/-- C6 witness: at the empty world, `get_student_info` fails with
`Not logged in` even with a successful response available. -/
theorem C6_not_authenticated_and_logout_witness :
    get_student_info (.ok .null) ⟨.absent, none⟩
      = (⟨.absent, none⟩, .error "Not logged in") :=
  C6_not_authenticated_and_logout.1 (.ok .null) ⟨.absent, none⟩ rfl

-- ── C3 ──────────────────────────────────────────────────────────────

/-- C3: once the credential POST completes at the transport level, the
success/failure decision of `login` depends solely on the host of the POST
response's final resolved URL: the CAS host `sso.uom.gr` yields the
`InvalidCredentials` error carrying the final URL, any other host proceeds
to the security-token/profile-extraction tail of the flow, and neither the
response's status code nor its body influences the outcome. -/
theorem C3_host_check_sole_signal (env : LoginEnv) (w : World)
    (u : String) (d : Doc) (t : String × Option String) (r : HttpResponse)
    (h1 : env.portalInit = .ok ()) (h2 : env.casPage = .ok (u, d))
    (h3 : extract_cas_tokens d = .ok t) (h4 : env.casPost = .ok r) :
    (r.host = some "sso.uom.gr" →
      login env w =
        (w, .error ("Invalid username or password (ended at " ++ r.urlStr ++ ")"))) ∧
    (r.host ≠ some "sso.uom.gr" → login env w = loginAfterHostCheck env w) ∧
    (∀ status body,
      login { env with casPost := .ok { r with status := status, body := body } } w
        = login env w) := by
  refine ⟨fun hh => ?_, fun hh => ?_, fun status body => ?_⟩
  · simp only [login, h1, h2, h3, h4]
    simp [hh]
  · simp only [login, h1, h2, h3, h4]
    simp [hh]
  · simp only [login, h4]
    rfl

/-- C3 witness: a concrete POST response that lands back on `sso.uom.gr`
makes a concrete login fail with the diagnostic `InvalidCredentials`
message. -/
theorem C3_host_check_sole_signal_witness :
    login
      ⟨.ok (), .ok ("https://sso.uom.gr/login?service=x",
          [⟨"input", [("name", "execution"), ("value", "E")]⟩]),
        .ok ⟨some "sso.uom.gr", "https://sso.uom.gr/login?service=x", 200, "body"⟩,
        .error "unused", .error "unused", .error "unused", true, []⟩
      ⟨.absent, none⟩
      = (⟨.absent, none⟩,
         .error "Invalid username or password (ended at https://sso.uom.gr/login?service=x)") := by
  have h := (C3_host_check_sole_signal
      ⟨.ok (), .ok ("https://sso.uom.gr/login?service=x",
          [⟨"input", [("name", "execution"), ("value", "E")]⟩]),
        .ok ⟨some "sso.uom.gr", "https://sso.uom.gr/login?service=x", 200, "body"⟩,
        .error "unused", .error "unused", .error "unused", true, []⟩
      ⟨.absent, none⟩
      "https://sso.uom.gr/login?service=x"
      [⟨"input", [("name", "execution"), ("value", "E")]⟩]
      ("E", none)
      ⟨some "sso.uom.gr", "https://sso.uom.gr/login?service=x", 200, "body"⟩
      rfl rfl rfl rfl).1 rfl
  simpa using h

-- ── Case analyses of the login flow ─────────────────────────────────

/-- `loginAfterHostCheck` either fails leaving the world untouched, or
installs a complete session (writing the record to disk when the best-effort
save succeeds). -/
lemma loginAfterHostCheck_cases (env : LoginEnv) (w : World) :
    (∃ e, loginAfterHostCheck env w = (w, .error e)) ∨
    (∃ csrf pid j, loginAfterHostCheck env w =
      (store_session
        (if env.saveOk then
          { w with disk := .record ⟨serializeCookies env.finalJar, csrf, pid⟩ }
         else w)
        ⟨⟨env.finalJar⟩, csrf, pid⟩, .ok j)) := by
  rcases h5 : env.portalHtml with e | pd
  · exact .inl ⟨e, by simp only [loginAfterHostCheck, h5]⟩
  · rcases h6 : extract_csrf pd with e | csrf
    · exact .inl ⟨e, by simp only [loginAfterHostCheck, h5, h6]⟩
    · rcases h7 : env.profiles with e | profiles
      · exact .inl ⟨e, by simp only [loginAfterHostCheck, h5, h6, h7]⟩
      · rcases h8 : find_profile_id profiles with _ | pid
        · exact .inl ⟨"No student profiles found in: " ++ jsonRender profiles,
            by simp only [loginAfterHostCheck, h5, h6, h7, h8]⟩
        · rcases h9 : env.studentData with e | j
          · exact .inl ⟨e, by simp only [loginAfterHostCheck, h5, h6, h7, h8, h9]⟩
          · exact .inr ⟨csrf, pid, j,
              by simp only [loginAfterHostCheck, h5, h6, h7, h8, h9]⟩

/-- `login` either fails leaving the world untouched, or installs a complete
session. -/
lemma login_cases (env : LoginEnv) (w : World) :
    (∃ e, login env w = (w, .error e)) ∨
    (∃ csrf pid j, login env w =
      (store_session
        (if env.saveOk then
          { w with disk := .record ⟨serializeCookies env.finalJar, csrf, pid⟩ }
         else w)
        ⟨⟨env.finalJar⟩, csrf, pid⟩, .ok j)) := by
  rcases h1 : env.portalInit with e | u1
  · exact .inl ⟨"Portal unreachable: " ++ e, by simp only [login, h1]⟩
  · rcases h2 : env.casPage with e | p
    · exact .inl ⟨"CAS page error: " ++ e, by simp only [login, h1, h2]⟩
    · obtain ⟨lurl, ldoc⟩ := p
      rcases h3 : extract_cas_tokens ldoc with e | t
      · exact .inl ⟨e, by simp only [login, h1, h2, h3]⟩
      · obtain ⟨ex, lt⟩ := t
        rcases h4 : env.casPost with e | resp
        · exact .inl ⟨"Login request failed: " ++ e, by simp only [login, h1, h2, h3, h4]⟩
        · by_cases hh : resp.host = some "sso.uom.gr"
          · exact .inl ⟨"Invalid username or password (ended at " ++ resp.urlStr ++ ")",
              by simp only [login, h1, h2, h3, h4]; simp [hh]⟩
          · have heq : login env w = loginAfterHostCheck env w := by
              simp only [login, h1, h2, h3, h4]; simp [hh]
            rw [heq]
            exact loginAfterHostCheck_cases env w

-- ── C5 ──────────────────────────────────────────────────────────────

/-- C5: every session-state operation is all-or-nothing. A failing `login`
leaves both the in-memory session and the disk exactly as they were; a
successful one installs a complete session as one value. A failing restore
leaves the in-memory session unchanged and changes the disk only by the
restore path's deletion of a confirmed-invalid record; a successful one
installs a complete session. The data commands never change state, and the
session slot is always either absent or one whole `SessionData`. -/
theorem C5_all_or_nothing (env : LoginEnv) (renv : RestoreEnv)
    (resp : ApiResult) (w : World) :
    (∀ e, (login env w).2 = .error e → (login env w).1 = w) ∧
    (∀ j, (login env w).2 = .ok j → ∃ sd, (login env w).1.session = some sd) ∧
    (∀ e, (try_restore_session renv w).2 = .error e →
      (try_restore_session renv w).1.session = w.session ∧
      ((try_restore_session renv w).1.disk = w.disk ∨
        ((try_restore_session renv w).1.disk = .absent ∧ e = "Session expired"))) ∧
    (∀ j, (try_restore_session renv w).2 = .ok j →
      ∃ sd, (try_restore_session renv w).1.session = some sd) ∧
    (get_student_info resp w).1 = w ∧
    (get_grades resp w).1 = w ∧
    (∀ c p, (get_grade_stats c p resp w).1 = w) := by
  have hrestore : (∃ e, try_restore_session renv w = (w, .error e) ∧ e ≠ "Session expired") ∨
      try_restore_session renv w = ({ w with disk := .absent }, .error "Session expired") ∨
      (∃ sd j, try_restore_session renv w = ({ w with session := some sd }, .ok j)) := by
    rcases hd : w.disk with _ | raw | saved
    · exact .inl ⟨"No saved session", by simp [try_restore_session, hd], by decide⟩
    · exact .inl ⟨"Corrupt session file", by simp [try_restore_session, hd], by decide⟩
    · by_cases hc : saved.portal_cookies = ""
      · exact .inl ⟨"Empty session", by simp [try_restore_session, hd, hc], by decide⟩
      · rcases hv : renv.validate with e | j
        · exact .inr (.inl (by
            simp [try_restore_session, hd, hc, hv, delete_session_from_disk]))
        · exact .inr (.inr ⟨⟨build_client_from_cookies saved.portal_cookies,
              saved.csrf, saved.profile_id⟩, j,
            by simp [try_restore_session, hd, hc, hv, store_session]⟩)
  refine ⟨fun e he => ?_, fun j hj => ?_, fun e he => ?_, fun j hj => ?_,
    ?_, ?_, fun c p => ?_⟩
  case refine_5 => cases h : w.session <;> simp [get_student_info, extract_session, h]
  case refine_6 => cases h : w.session <;> simp [get_grades, extract_session, h]
  case refine_7 => cases h : w.session <;> simp [get_grade_stats, extract_session, h]
  · rcases login_cases env w with ⟨e', hw⟩ | ⟨csrf, pid, j, hw⟩
    · rw [hw]
    · rw [hw] at he
      simp [store_session] at he
  · rcases login_cases env w with ⟨e', hw⟩ | ⟨csrf, pid, j', hw⟩
    · rw [hw] at hj
      simp at hj
    · rw [hw]
      exact ⟨⟨⟨env.finalJar⟩, csrf, pid⟩, rfl⟩
  · rcases hrestore with ⟨e', hw, hne⟩ | hw | ⟨sd, j, hw⟩
    · rw [hw] at he ⊢
      exact ⟨rfl, .inl rfl⟩
    · rw [hw] at he ⊢
      cases he
      exact ⟨rfl, .inr ⟨rfl, rfl⟩⟩
    · rw [hw] at he
      simp at he
  · rcases hrestore with ⟨e', hw, hne⟩ | hw | ⟨sd, j', hw⟩
    · rw [hw] at hj
      simp at hj
    · rw [hw] at hj
      simp at hj
    · rw [hw]
      exact ⟨sd, rfl⟩

/-- C5 witness: at a concrete failing login (CAS page unreachable) the world
is unchanged, discharging the error-path hypothesis concretely. -/
theorem C5_all_or_nothing_witness :
    (login ⟨.ok (), .error "timeout", .error "x", .error "x", .error "x",
        .error "x", true, []⟩
      ⟨.absent, none⟩).1 = ⟨.absent, none⟩ :=
  (C5_all_or_nothing ⟨.ok (), .error "timeout", .error "x", .error "x",
      .error "x", .error "x", true, []⟩ ⟨.ok .null⟩ (.ok .null)
      ⟨.absent, none⟩).1 "CAS page error: timeout" rfl

-- ── C7 ──────────────────────────────────────────────────────────────

/-- The result and installed session of `login` do not depend on whether the
best-effort disk write succeeds: two environments that agree on everything
but `saveOk` produce the same result and the same in-memory session. -/
lemma login_result_ignores_save (p1 : Except String Unit)
    (p2 : Except String (String × Doc)) (p3 : Except String HttpResponse)
    (p4 : Except String Doc) (p5 p6 : Except String Json) (sv sv' : Bool)
    (fj : List (String × String)) (w : World) :
    (login ⟨p1, p2, p3, p4, p5, p6, sv', fj⟩ w).2
      = (login ⟨p1, p2, p3, p4, p5, p6, sv, fj⟩ w).2 ∧
    (login ⟨p1, p2, p3, p4, p5, p6, sv', fj⟩ w).1.session
      = (login ⟨p1, p2, p3, p4, p5, p6, sv, fj⟩ w).1.session := by
  rcases p1 with er | u1
  · simp [login]
  rcases p2 with er | p
  · simp [login]
  obtain ⟨lurl, ldoc⟩ := p
  rcases h3 : extract_cas_tokens ldoc with er | t
  · simp [login, h3]
  obtain ⟨ex, lt⟩ := t
  rcases p3 with er | resp
  · simp [login, h3]
  by_cases hh : resp.host = some "sso.uom.gr"
  · simp [login, h3, hh]
  rcases p4 with er | pd
  · simp [login, loginAfterHostCheck, h3, hh]
  rcases hc : extract_csrf pd with er | csrf
  · simp [login, loginAfterHostCheck, h3, hh, hc]
  rcases p5 with er | profiles
  · simp [login, loginAfterHostCheck, h3, hh, hc]
  rcases hp : find_profile_id profiles with _ | pid
  · simp [login, loginAfterHostCheck, h3, hh, hc, hp]
  rcases p6 with er | sdata
  · simp [login, loginAfterHostCheck, h3, hh, hc, hp]
  simp [login, loginAfterHostCheck, h3, hh, hc, hp, store_session]

/-- C7: a persistence-write failure never fails an otherwise-successful
login. The returned result and the installed in-memory session do not depend
on `saveOk` at all, and whenever steps 1-8 succeed (every round-trip, token
extraction, profile resolution and the student-data fetch), `login` returns
the student payload and installs the complete session — whatever the save
outcome was. -/
theorem C7_save_failure_never_fails_login (env : LoginEnv) (w : World) :
    (∀ b, (login { env with saveOk := b } w).2 = (login env w).2 ∧
      (login { env with saveOk := b } w).1.session = (login env w).1.session) ∧
    (∀ u d t r pd csrf profiles pid sdata,
      env.portalInit = .ok () → env.casPage = .ok (u, d) →
      extract_cas_tokens d = .ok t → env.casPost = .ok r →
      r.host ≠ some "sso.uom.gr" → env.portalHtml = .ok pd →
      extract_csrf pd = .ok csrf → env.profiles = .ok profiles →
      find_profile_id profiles = some pid → env.studentData = .ok sdata →
      (login env w).2 = .ok sdata ∧
      (login env w).1.session = some ⟨⟨env.finalJar⟩, csrf, pid⟩) := by
  constructor
  · intro b
    obtain ⟨p1, p2, p3, p4, p5, p6, sv, fj⟩ := env
    exact login_result_ignores_save p1 p2 p3 p4 p5 p6 sv b fj w
  · intro u d t r pd csrf profiles pid sdata h1 h2 h3 h4 hh h5 h6 h7 h8 h9
    have hhost : login env w = loginAfterHostCheck env w := by
      simp only [login, h1, h2, h3, h4]
      simp [hh]
    rw [hhost]
    simp only [loginAfterHostCheck, h5, h6, h7, h8, h9]
    constructor <;> simp [store_session]

/-- C7 witness: a fully-successful concrete login returns the payload and
installs the session even though the disk write fails (`saveOk = false`). -/
theorem C7_save_failure_never_fails_login_witness :
    (login ⟨.ok (), .ok ("u", [⟨"input", [("name", "execution"), ("value", "E")]⟩]),
        .ok ⟨some "sis-portal.uom.gr", "https://sis-portal.uom.gr/login/cas", 200, ""⟩,
        .ok [⟨"meta", [("name", "_csrf"), ("content", "T")]⟩],
        .ok (.arr [.obj [("id", .str "7")]]), .ok (.str "data"), false,
        [("JSESSIONID", "abc")]⟩
      ⟨.absent, none⟩).2 = .ok (.str "data") :=
  ((C7_save_failure_never_fails_login _ ⟨.absent, none⟩).2
    "u" [⟨"input", [("name", "execution"), ("value", "E")]⟩] ("E", none)
    ⟨some "sis-portal.uom.gr", "https://sis-portal.uom.gr/login/cas", 200, ""⟩
    [⟨"meta", [("name", "_csrf"), ("content", "T")]⟩] "T"
    (.arr [.obj [("id", .str "7")]]) "7" (.str "data")
    rfl rfl rfl rfl (by decide) rfl rfl rfl (by rw [find_profile_id]; decide) rfl).1

-- ── C8 ──────────────────────────────────────────────────────────────

/-- Splitting a list that begins with a non-separator character keeps that
character on the front of the first segment. -/
lemma splitSemiSp_cons_ne (c : Char) (rest : List Char) (hc : c ≠ ';') :
    splitSemiSp (c :: rest) =
      match splitSemiSp rest with
      | [] => [[c]]
      | h :: t => (c :: h) :: t := by
  rw [splitSemiSp.eq_def]
  split
  · simp_all
  · rename_i heq
    rw [List.cons.injEq] at heq
    exact absurd heq.1 hc
  · rename_i heq
    rw [List.cons.injEq] at heq
    obtain ⟨rfl, rfl⟩ := heq
    rfl

/-- A separator-free list splits into itself alone. -/
lemma splitSemiSp_no_semi : ∀ (xs : List Char), ';' ∉ xs → splitSemiSp xs = [xs]
  | [], _ => rfl
  | c :: rest, h => by
      have hc : c ≠ ';' := fun hcc => h (hcc ▸ List.mem_cons_self c rest)
      have hr : ';' ∉ rest := fun hm => h (List.mem_cons_of_mem c hm)
      rw [splitSemiSp_cons_ne c rest hc, splitSemiSp_no_semi rest hr]

/-- Splitting past a separator-free prefix peels off exactly that prefix. -/
lemma splitSemiSp_append_sep : ∀ (xs ys : List Char), ';' ∉ xs →
    splitSemiSp (xs ++ ';' :: ' ' :: ys) = xs :: splitSemiSp ys
  | [], ys, _ => by rw [List.nil_append, splitSemiSp]
  | c :: xs', ys, h => by
      have hc : c ≠ ';' := fun hcc => h (hcc ▸ List.mem_cons_self c xs')
      have hr : ';' ∉ xs' := fun hm => h (List.mem_cons_of_mem c hm)
      rw [List.cons_append, splitSemiSp_cons_ne c _ hc,
        splitSemiSp_append_sep xs' ys hr]

/-- Splitting is a left inverse of joining for a non-empty list of
separator-free segments. -/
lemma splitSemiSp_joinSemiSp : ∀ (parts : List (List Char)), parts ≠ [] →
    (∀ p ∈ parts, ';' ∉ p) → splitSemiSp (joinSemiSp parts) = parts
  | [], hne, _ => absurd rfl hne
  | [x], _, hall => by
      rw [joinSemiSp]
      exact splitSemiSp_no_semi x (hall x (List.mem_singleton_self x))
  | x :: y :: t, _, hall => by
      rw [show joinSemiSp (x :: y :: t) = x ++ ';' :: ' ' :: joinSemiSp (y :: t) from rfl,
        splitSemiSp_append_sep x _ (hall x (List.mem_cons_self _ _)),
        splitSemiSp_joinSemiSp (y :: t) (by simp)
          (fun p hp => hall p (List.mem_cons_of_mem x hp))]

/-- `takeWhile (· ≠ sep)` stops exactly at the first `=`. -/
lemma takeWhile_until_eq : ∀ (xs ys : List Char), '=' ∉ xs →
    ((xs ++ '=' :: ys).takeWhile fun c => c ≠ '=') = xs
  | [], ys, _ => by simp [List.takeWhile_cons]
  | c :: xs', ys, h => by
      have hc : c ≠ '=' := fun hcc => h (hcc ▸ List.mem_cons_self c xs')
      have hr : '=' ∉ xs' := fun hm => h (List.mem_cons_of_mem c hm)
      rw [List.cons_append, List.takeWhile_cons, if_pos (by simpa using hc),
        takeWhile_until_eq xs' ys hr]

/-- Dropping the name and the `=` leaves the value. -/
lemma drop_after_eq (xs ys : List Char) :
    (xs ++ '=' :: ys).drop (xs.length + 1) = ys := by
  rw [show xs ++ '=' :: ys = (xs ++ ['=']) ++ ys by simp]
  rw [show xs.length + 1 = (xs ++ ['=']).length by simp]
  exact List.drop_left _ _

/-- Parsing inverts serialization for one well-formed cookie pair. -/
lemma parseCookiePair_pairChars (n v : String) (hn : n ≠ "")
    (he : '=' ∉ n.data) :
    parseCookiePair (cookiePairChars (n, v)) = some (n, v) := by
  have hd : n.data ≠ [] := by
    intro hdd
    apply hn
    cases n
    simp only at hdd
    subst hdd
    rfl
  simp only [parseCookiePair, cookiePairChars]
  rw [takeWhile_until_eq n.data v.data he]
  rw [if_neg, drop_after_eq]
  push_neg
  refine ⟨fun hlen => ?_, hd⟩
  · rw [List.length_append, List.length_cons] at hlen
    omega

/-- Folding well-formed, fresh, duplicate-free cookie pairs into a jar
appends them in order. -/
lemma foldl_addCookiePart_fresh : ∀ (l acc : List (String × String)),
    (∀ p ∈ l, p.1 ≠ "" ∧ '=' ∉ p.1.data) →
    (∀ p ∈ l, ∀ q ∈ acc, q.1 ≠ p.1) →
    (l.map Prod.fst).Nodup →
    (l.map cookiePairChars).foldl addCookiePart acc = acc ++ l
  | [], acc, _, _, _ => by simp
  | p :: l', acc, hgood, hfresh, hnodup => by
      obtain ⟨n, v⟩ := p
      have hgp := hgood (n, v) (List.mem_cons_self _ _)
      rw [List.map_cons, List.foldl_cons]
      have hne : (cookiePairChars (n, v)).isEmpty = false := by
        rcases hd : n.data with _ | ⟨c, cs⟩ <;> simp [cookiePairChars, hd]
      have hnd : n ∉ l'.map Prod.fst ∧ (l'.map Prod.fst).Nodup := by
        rw [List.map_cons, List.nodup_cons] at hnodup
        exact hnodup
      have hstep : addCookiePart acc (cookiePairChars (n, v)) = acc ++ [(n, v)] := by
        simp only [addCookiePart, hne, Bool.false_eq_true, if_false,
          parseCookiePair_pairChars n v hgp.1 hgp.2, jarInsert]
        rw [if_neg]
        simp only [List.any_eq_true, not_exists, not_and]
        intro q hq
        simpa using hfresh (n, v) (List.mem_cons_self _ _) q hq
      have hrec := foldl_addCookiePart_fresh l' (acc ++ [(n, v)])
        (fun q hq => hgood q (List.mem_cons_of_mem _ hq))
        (fun q hq r hr => by
          rcases List.mem_append.mp hr with hra | hrb
          · exact hfresh q (List.mem_cons_of_mem _ hq) r hra
          · have hrv : r = (n, v) := by simpa using hrb
            subst hrv
            intro hcontra
            apply hnd.1
            have hcontra' : n = q.1 := hcontra
            rw [hcontra']
            exact List.mem_map_of_mem Prod.fst hq)
        hnd.2
      rw [hstep, hrec]
      simp

/-- C8: rebuilding a client from a jar's serialized `name=value; …` string
and re-serializing it reproduces the same name/value pairs; rebuilding from
the empty string succeeds with an empty jar. The hypotheses state
well-formedness of the jar being serialized: distinct cookie names, no empty
name, no `=` in a name, no `;` in names or values. -/
theorem C8_cookie_roundtrip (jar : List (String × String))
    (hnodup : (jar.map Prod.fst).Nodup)
    (hgood : ∀ p ∈ jar, p.1 ≠ "" ∧ '=' ∉ p.1.data ∧ ';' ∉ p.1.data)
    (hval : ∀ p ∈ jar, ';' ∉ p.2.data) :
    (build_client_from_cookies (serializeCookies jar)).jar = jar ∧
    serializeCookies (build_client_from_cookies (serializeCookies jar)).jar
      = serializeCookies jar ∧
    build_client_from_cookies "" = ⟨[]⟩ := by
  have hmain : (build_client_from_cookies (serializeCookies jar)).jar = jar := by
    rcases jar with _ | ⟨p, rest⟩
    · rfl
    · show ((splitSemiSp (serializeCookies (p :: rest)).data).foldl addCookiePart []) = _
      have hdata : (serializeCookies (p :: rest)).data
          = joinSemiSp ((p :: rest).map cookiePairChars) := rfl
      rw [hdata, splitSemiSp_joinSemiSp _ (by simp) ?hsemi]
      case hsemi =>
        intro part hpart
        rw [List.mem_map] at hpart
        obtain ⟨q, hq, rfl⟩ := hpart
        have h1 := (hgood q hq).2.2
        have h2 := hval q hq
        simp only [cookiePairChars, List.mem_append, List.mem_cons]
        rintro (hin | hin | hin)
        · exact h1 hin
        · exact absurd hin (by decide)
        · exact h2 hin
      rw [foldl_addCookiePart_fresh _ []
        (fun q hq => ⟨(hgood q hq).1, (hgood q hq).2.1⟩)
        (fun q _ r hr => absurd hr (List.not_mem_nil r)) hnodup]
      rfl
  exact ⟨hmain, by rw [hmain], rfl⟩

/-- C8 witness: the concrete jar `a=1; b=2` round-trips, and the empty
cookie string yields an empty jar. -/
theorem C8_cookie_roundtrip_witness :
    (build_client_from_cookies (serializeCookies [("a", "1"), ("b", "2")])).jar
      = [("a", "1"), ("b", "2")] ∧
    build_client_from_cookies "" = ⟨[]⟩ := by
  have h := C8_cookie_roundtrip [("a", "1"), ("b", "2")]
    (by decide) (by decide) (by decide)
  exact ⟨h.1, h.2.2⟩
